import Mathlib

/-!
Verification of the `agent-deployment` worker of the support-center
repository: a shallow embedding of the job execution pipeline
(`src/api/types.rs`, `src/execution/installer.rs`, `src/api/client.rs`,
`src/jobs/poller.rs`, `src/jobs/reporter.rs`, `src/jobs/executor.rs`)
together with proofs about it.

Modelling conventions:
- Rust machine integers are modelled as `Nat`/`Int`, with an explicit
  `% 2 ^ w` where the source relies on wrapping conversions
  (`as u64` casts, `u32` wrapping increment in release builds).
- `std::time::Duration` values in the poller are whole seconds
  (`Duration::from_secs` everywhere), modelled as `Nat` seconds.
  The reporter's backoff works through `f32` seconds; it is modelled
  over `ℚ` (on the ranges the worker uses - small integer second
  counts doubled and capped at 30 - the `f32` round trip is exact).
- External effects (HTTP responses, the OS credential store, SMB and
  service-control calls, elapsed wall-clock time) are passed in as
  explicit data, so every function of the source becomes a pure,
  executable Lean function.
- `uuid::Uuid` is an opaque token, modelled as `Nat`; `DateTime<Utc>`
  timestamps are modelled as `Int` seconds.
- Rust `Display` renderings (`thiserror` format strings) are modelled
  by explicit `render` functions so that error strings are preserved.
-/

namespace AgentDeployment

/-! ## Data model (`src/api/types.rs`) -/

/-- `JobType` from `api/types.rs` (wire values `msi_install`,
`msi_uninstall`, `execute`). -/
inductive JobType
| MsiInstall
| MsiUninstall
| Execute
deriving DecidableEq, Repr

/-- `JobType::is_supported` from `api/types.rs` lines 49-53:
`matches!(self, JobType::MsiInstall | JobType::MsiUninstall | JobType::Execute)`. -/
def JobType.is_supported : JobType → Bool
| .MsiInstall => true
| .MsiUninstall => true
| .Execute => true

/-- Debug rendering of `JobType` (Rust `{:?}` of the derived `Debug`). -/
def JobType.debugStr : JobType → String
| .MsiInstall => "MsiInstall"
| .MsiUninstall => "MsiUninstall"
| .Execute => "Execute"

/-- `InlineCredentials` from `api/types.rs` (`r#type` renamed to
`cred_type`). -/
structure InlineCredentials where
  username : String
  password : String
  cred_type : String
deriving DecidableEq, Repr

/-- `DeploymentTarget` from `api/types.rs`. -/
structure DeploymentTarget where
  hostname : String
  vault_ref : Option String
  machine_id : Option String
deriving DecidableEq, Repr

/-- `JobPayload` from `api/types.rs`. -/
structure JobPayload where
  installer_path : String
  vault_ref : String
  inline_credentials : Option InlineCredentials
  install_args : Option String
  enroll_token : Option String
  targets : List DeploymentTarget
  product_code : Option String
  force_restart : Bool
deriving DecidableEq, Repr

/-- `DeploymentJob` from `api/types.rs`; `id` is an opaque `Uuid`
(modelled `Nat`), timestamps are `Int` seconds. -/
structure DeploymentJob where
  id : Nat
  job_type : JobType
  created_at : Int
  priority : Nat
  payload : JobPayload
  claimed_by : Option String
  claimed_at : Option Int
deriving DecidableEq, Repr

/-- `JobStatus` from `api/types.rs`. -/
inductive JobStatus
| Success
| PartialSuccess
| Failed
deriving DecidableEq, Repr

/-- `ExecutionPhase` from `api/types.rs`. -/
inductive ExecutionPhase
| ReachabilityCheck
| CredentialResolution
| SmbCopy
| ServiceCreation
| ServiceExecution
| Cleanup
deriving DecidableEq, Repr

/-- `TargetResult` from `api/types.rs`; `exit_code` is `i32`, modelled
as `Int`. -/
structure TargetResult where
  hostname : String
  machine_id : Option String
  success : Bool
  exit_code : Option Int
  error_message : Option String
  duration_seconds : Nat
  failed_phase : Option ExecutionPhase
deriving DecidableEq, Repr

/-- `TargetResult::success` constructor from `api/types.rs` lines
223-235 (renamed `mkSuccess` to avoid clashing with the `success`
field): `success: exit_code == 0 || exit_code == 3010`. -/
def TargetResult.mkSuccess (hostname : String) (machine_id : Option String)
    (exit_code : Int) (duration_seconds : Nat) : TargetResult :=
  { hostname := hostname
    machine_id := machine_id
    success := exit_code == 0 || exit_code == 3010
    exit_code := some exit_code
    error_message := none
    duration_seconds := duration_seconds
    failed_phase := none }

/-- `TargetResult::failure` constructor from `api/types.rs` lines
237-254 (renamed `mkFailure`). -/
def TargetResult.mkFailure (hostname : String) (machine_id : Option String)
    (error : String) (duration_seconds : Nat) (phase : ExecutionPhase) :
    TargetResult :=
  { hostname := hostname
    machine_id := machine_id
    success := false
    exit_code := none
    error_message := some error
    duration_seconds := duration_seconds
    failed_phase := some phase }

/-- `JobResult` from `api/types.rs`. -/
structure JobResult where
  job_id : Nat
  worker_id : String
  status : JobStatus
  started_at : Int
  completed_at : Int
  duration_seconds : Nat
  target_results : List TargetResult
  error_message : Option String
deriving DecidableEq, Repr

/-- `JobResult::new` from `api/types.rs` lines 147-159; `now` stands
for the `Utc::now()` call. -/
def JobResult.new (job_id : Nat) (worker_id : String) (started_at : Int)
    (now : Int) : JobResult :=
  { job_id := job_id
    worker_id := worker_id
    status := JobStatus.Success
    started_at := started_at
    completed_at := now
    duration_seconds := 0
    target_results := []
    error_message := none }

/-- `JobResult::calculate_status` from `api/types.rs` lines 169-184. -/
def JobResult.calculate_status (self : JobResult) : JobStatus :=
  if self.target_results.isEmpty then JobStatus.Failed
  else
    let success_count := (self.target_results.filter (·.success)).length
    let total := self.target_results.length
    if success_count = total then JobStatus.Success
    else if success_count > 0 then JobStatus.PartialSuccess
    else JobStatus.Failed

/-- `JobResult::finalize` from `api/types.rs` lines 162-166; `now`
stands for `Utc::now()`, and the `num_seconds() as u64` cast is the
wrapping conversion `% 2 ^ 64`. -/
def JobResult.finalize (self : JobResult) (now : Int) : JobResult :=
  let completed := now
  { self with
    completed_at := completed
    duration_seconds := ((completed - self.started_at) % (2 ^ 64 : Int)).toNat
    status := { self with completed_at := completed }.calculate_status }

/-! ## Installer command building (`src/execution/installer.rs`) -/

/-- `MsiExitCode` from `execution/installer.rs`. -/
inductive MsiExitCode
| Success
| RebootRequired
| AlreadyInProgress
| InvalidArgument
| SourceUnavailable
| ProductNotInstalled
| Failed (code : Int)
deriving DecidableEq, Repr

/-- `impl From<i32> for MsiExitCode` from `execution/installer.rs`
lines 46-58 (named `ofCode`; the source's integer match is an
if-chain on the same literals). -/
def MsiExitCode.ofCode (code : Int) : MsiExitCode :=
  if code = 0 then .Success
  else if code = 3010 then .RebootRequired
  else if code = 1618 then .AlreadyInProgress
  else if code = 1639 then .InvalidArgument
  else if code = 1612 then .SourceUnavailable
  else if code = 1605 then .ProductNotInstalled
  else .Failed code

/-- `MsiExitCode::is_success` from `execution/installer.rs` lines
60-66: `matches!(self, Success | RebootRequired)`. -/
def MsiExitCode.is_success : MsiExitCode → Bool
| .Success => true
| .RebootRequired => true
| _ => false

/-- `MsiExitCode::code` from `execution/installer.rs` lines 68-79. -/
def MsiExitCode.code : MsiExitCode → Int
| .Success => 0
| .RebootRequired => 3010
| .AlreadyInProgress => 1618
| .InvalidArgument => 1639
| .SourceUnavailable => 1612
| .ProductNotInstalled => 1605
| .Failed c => c

/-- `InstallerError` from `execution/installer.rs`. -/
inductive InstallerError
| InvalidPath (path : String)
| UnsupportedJobType (job_type : JobType)
| MissingParameter (name : String)
| InvalidProductCode (code : String)
deriving DecidableEq, Repr

/-- `Display` rendering of `InstallerError` (the `thiserror` format
strings of `execution/installer.rs` lines 12-25). -/
def InstallerError.render : InstallerError → String
| .InvalidPath p => "Invalid MSI path: " ++ p
| .UnsupportedJobType jt => "Unsupported job type: " ++ jt.debugStr
| .MissingParameter n => "Missing required parameter: " ++ n
| .InvalidProductCode c => "Invalid product code format: " ++ c

/-- `MsiCommandBuilder` from `execution/installer.rs` lines 96-111. -/
structure MsiCommandBuilder where
  msi_path : String
  job_type : JobType
  install_args : List String
  properties : List (String × String)
  quiet : Bool
  no_restart : Bool
  log_file : Option String
deriving DecidableEq, Repr

/-- `MsiCommandBuilder::new` from `execution/installer.rs` lines
119-129 (defaults: quiet and no-restart on, no args, no log file). -/
def MsiCommandBuilder.new (msi_path : String) (job_type : JobType) :
    MsiCommandBuilder :=
  { msi_path := msi_path
    job_type := job_type
    install_args := []
    properties := []
    quiet := true
    no_restart := true
    log_file := none }

/-- Maximal runs of characters not satisfying `p` (the splitting
underneath Rust `str::split_whitespace`, which never yields empty
tokens); `acc` holds the reversed current run. -/
def wordsByAux (p : Char → Bool) : List Char → List Char → List (List Char)
| [], acc => if acc.isEmpty then [] else [acc.reverse]
| c :: cs, acc =>
  if p c then
    if acc.isEmpty then wordsByAux p cs []
    else acc.reverse :: wordsByAux p cs []
  else wordsByAux p cs (c :: acc)

/-- Rust `str::split_whitespace` over the character list of a string. -/
def splitWhitespace (s : String) : List String :=
  (wordsByAux Char.isWhitespace s.data []).map String.mk

/-- `MsiCommandBuilder::with_args` from `execution/installer.rs` lines
132-140: splits on whitespace runs (Rust `split_whitespace`) and
appends each token. -/
def MsiCommandBuilder.with_args (self : MsiCommandBuilder) (args : String) :
    MsiCommandBuilder :=
  if args.data.isEmpty then self
  else
    { self with install_args := self.install_args ++ splitWhitespace args }

/-- `MsiCommandBuilder::with_property` from `execution/installer.rs`
lines 143-146. -/
def MsiCommandBuilder.with_property (self : MsiCommandBuilder)
    (key value : String) : MsiCommandBuilder :=
  { self with properties := self.properties ++ [(key, value)] }

/-- `MsiCommandBuilder::with_logging` from `execution/installer.rs`
lines 161-164. -/
def MsiCommandBuilder.with_logging (self : MsiCommandBuilder)
    (log_file : String) : MsiCommandBuilder :=
  { self with log_file := some log_file }

/-- `MsiCommandBuilder::build` from `execution/installer.rs` lines
170-221: `msiexec`, the operation flag (rejecting `Execute` with a
typed error), the quoted path, `/qn`, `/norestart`, optional logging,
the extra arguments, then `KEY=VALUE` properties (values containing a
space are quoted). -/
def MsiCommandBuilder.build (self : MsiCommandBuilder) :
    Except InstallerError String :=
  match self.job_type with
  | .Execute => Except.error (InstallerError.UnsupportedJobType self.job_type)
  | jt =>
    let cmd := "msiexec" ++ (if jt = JobType.MsiInstall then " /i" else " /x")
    let cmd := cmd ++ " \"" ++ self.msi_path ++ "\""
    let cmd := if self.quiet then cmd ++ " /qn" else cmd
    let cmd := if self.no_restart then cmd ++ " /norestart" else cmd
    let cmd := match self.log_file with
      | some log_file => cmd ++ " /l*v \"" ++ log_file ++ "\""
      | none => cmd
    let cmd := self.install_args.foldl (fun c a => c ++ " " ++ a) cmd
    let cmd := self.properties.foldl
      (fun c kv =>
        if kv.2.data.contains ' ' then
          c ++ " " ++ kv.1 ++ "=\"" ++ kv.2 ++ "\""
        else
          c ++ " " ++ kv.1 ++ "=" ++ kv.2)
      cmd
    Except.ok cmd

/-- `build_msi_install_command` from `execution/installer.rs` lines
233-249. -/
def build_msi_install_command (msi_path : String)
    (install_args : Option String) (enroll_token : Option String) :
    Except InstallerError String :=
  let builder := MsiCommandBuilder.new msi_path JobType.MsiInstall
  let builder := match install_args with
    | some args => builder.with_args args
    | none => builder
  let builder := match enroll_token with
    | some token => builder.with_property "ENROLL_TOKEN" token
    | none => builder
  builder.build

/-- ASCII hex digit test (Rust `char::is_ascii_hexdigit`). -/
def isAsciiHexDigit (c : Char) : Bool :=
  c.isDigit || ('a' ≤ c && c ≤ 'f') || ('A' ≤ c && c ≤ 'F')

/-- Rust `str::starts_with(char)` over the character list. -/
def headIs (s : String) (c : Char) : Bool :=
  match s.data with
  | [] => false
  | x :: _ => x == c

/-- Rust `str::ends_with(char)` over the character list. -/
def lastIs (s : String) (c : Char) : Bool :=
  match s.data.getLast? with
  | some x => x == c
  | none => false

/-- Rust `str::split(char)` over a character list (keeps empty
pieces); `acc` holds the reversed current piece. -/
def splitOnCharAux (sep : Char) : List Char → List Char → List (List Char)
| [], acc => [acc.reverse]
| c :: cs, acc =>
  if c == sep then acc.reverse :: splitOnCharAux sep cs []
  else splitOnCharAux sep cs (c :: acc)

/-- `is_valid_product_code` from `execution/installer.rs` lines
278-300: a curly-braced string of five dash-separated ASCII-hex groups
of lengths 8-4-4-4-12. -/
def is_valid_product_code (code : String) : Bool :=
  if !(headIs code '\x7b') || !(lastIs code '\x7d') then false
  else
    let inner := (code.data.drop 1).dropLast
    let parts := splitOnCharAux '-' inner []
    if parts.length ≠ 5 then false
    else
      (parts.zip [8, 4, 4, 4, 12]).all fun pe =>
        pe.1.length == pe.2 && pe.1.all isAsciiHexDigit

/-- `build_msi_uninstall_command` from `execution/installer.rs` lines
259-275: validates the product code only when it looks like a GUID
(starts with a left curly brace). -/
def build_msi_uninstall_command (product_code : String)
    (install_args : Option String) : Except InstallerError String :=
  if headIs product_code '\x7b' && !is_valid_product_code product_code then
    Except.error (InstallerError.InvalidProductCode product_code)
  else
    let builder := MsiCommandBuilder.new product_code JobType.MsiUninstall
    let builder := match install_args with
      | some args => builder.with_args args
      | none => builder
    builder.build

/-- `wrap_for_service_execution` from `execution/installer.rs` lines
311-313. -/
def wrap_for_service_execution (msi_command : String) : String :=
  "cmd.exe /c " ++ msi_command

/-! ## Credential vault (`src/credentials/vault.rs`) -/

/-- `Credential` from `credentials/vault.rs`. -/
structure Credential where
  username : String
  password : String
deriving DecidableEq, Repr

/-- `Credential::new` from `credentials/vault.rs`. -/
def Credential.new (username password : String) : Credential :=
  { username := username, password := password }

/-- `VaultError` from `credentials/vault.rs`. -/
inductive VaultError
| NotFound (name : String)
| AccessDenied (name : String)
| InvalidFormat (name : String)
| WindowsError (message : String)
| Utf16Error
deriving DecidableEq, Repr

/-- `Display` rendering of `VaultError` (the `thiserror` format
strings of `credentials/vault.rs` lines 30-46). -/
def VaultError.render : VaultError → String
| .NotFound n => "Credential not found: " ++ n
| .AccessDenied n => "Access denied to credential: " ++ n
| .InvalidFormat n => "Invalid credential format: " ++ n
| .WindowsError m => "Windows API error: " ++ m
| .Utf16Error => "UTF-16 conversion error"

/-! ## API client (`src/api/client.rs`) -/

/-- `ApiError` from `api/client.rs`; `RequestFailed` carries the
rendered `reqwest` error text. -/
inductive ApiError
| RequestFailed (message : String)
| AuthenticationFailed (message : String)
| ServerError (status_code : Nat) (message : String)
| CredentialError (error : VaultError)
| InvalidResponse (message : String)
| RateLimited (retry_after_seconds : Nat)
| JobAlreadyClaimed
deriving DecidableEq, Repr

/-- `Display` rendering of `ApiError` (the `thiserror` format strings
of `api/client.rs` lines 19-41). -/
def ApiError.render : ApiError → String
| .RequestFailed m => "HTTP request failed: " ++ m
| .AuthenticationFailed m => "Authentication failed: " ++ m
| .ServerError s m => "Server error (" ++ toString s ++ "): " ++ m
| .CredentialError e => "Credential error: " ++ e.render
| .InvalidResponse m => "Invalid response: " ++ m
| .RateLimited r => "Rate limited, retry after " ++ toString r ++ "s"
| .JobAlreadyClaimed => "Job already claimed"

/-- Rust `u64::from_str`: an optional leading plus sign, then at least
one ASCII decimal digit, value below `2 ^ 64`; anything else fails. -/
def parse_u64 (s : String) : Option Nat :=
  let digits := if headIs s '+' then s.data.drop 1 else s.data
  if digits.isEmpty || !(digits.all Char.isDigit) then none
  else
    let n := digits.foldl (fun acc c => acc * 10 + (c.toNat - 48)) 0
    if n < 2 ^ 64 then some n else none

/-- The `Retry-After` extraction of `ApiClient::poll_next_job`
(`api/client.rs` lines 139-144): the header value as a string (absent
or non-ASCII header bytes give `none`), parsed as `u64`, defaulting to
60. -/
def retry_after_value (header : Option String) : Nat :=
  (header.bind parse_u64).getD 60

/-- The data of an HTTP response to the poll request, as consumed by
`ApiClient::poll_next_job`: the status code, the `Retry-After` header
(when convertible to a string), the outcome of parsing a 200 body as a
`DeploymentJob`, and the error message extracted from a non-200 body
(`detail` of an `ApiErrorResponse`, or the raw body text). -/
structure PollResponse where
  status : Nat
  retry_after_header : Option String
  job_body : Except String DeploymentJob
  error_body : String
deriving Repr

/-- The status dispatch of `ApiClient::poll_next_job` from
`api/client.rs` lines 123-165. -/
def poll_next_job (resp : PollResponse) :
    Except ApiError (Option DeploymentJob) :=
  if resp.status = 200 then
    match resp.job_body with
    | Except.ok job => Except.ok (some job)
    | Except.error e =>
      Except.error (ApiError.InvalidResponse ("Failed to parse job: " ++ e))
  else if resp.status = 204 then Except.ok none
  else if resp.status = 401 then
    Except.error (ApiError.AuthenticationFailed "Invalid or expired token")
  else if resp.status = 429 then
    Except.error
      (ApiError.RateLimited (retry_after_value resp.retry_after_header))
  else if resp.status = 409 then Except.error ApiError.JobAlreadyClaimed
  else Except.error (ApiError.ServerError resp.status resp.error_body)

/-- The data of an HTTP response to the report request, as consumed by
`ApiClient::report_result`: the status code and the error message
extracted from the body. -/
structure ReportResponse where
  status : Nat
  error_body : String
deriving DecidableEq, Repr

/-- The status dispatch of `ApiClient::report_result` from
`api/client.rs` lines 194-218: 200/201/202 accepted, 401 is an
authentication failure, 404 is treated as success, anything else is a
server error. -/
def report_result (resp : ReportResponse) : Except ApiError Unit :=
  if resp.status = 200 || resp.status = 201 || resp.status = 202 then
    Except.ok ()
  else if resp.status = 401 then
    Except.error (ApiError.AuthenticationFailed "Invalid or expired token")
  else if resp.status = 404 then Except.ok ()
  else Except.error (ApiError.ServerError resp.status resp.error_body)

/-! ## Result reporter (`src/jobs/reporter.rs`) -/

/-- `ReportError` from `jobs/reporter.rs`; the `ApiError(#[from])`
variant is named `ApiErr`. -/
inductive ReportError
| MaxRetriesExceeded (attempts : Nat) (last_error : String)
| ApiErr (error : ApiError)
| Disabled
deriving DecidableEq, Repr

/-- `ReporterConfig` from `jobs/reporter.rs`; the delays are `f32`
seconds in the source, modelled as rationals. -/
structure ReporterConfig where
  max_retries : Nat
  initial_delay : ℚ
  max_delay : ℚ
  backoff_factor : ℚ
deriving DecidableEq, Repr

/-- `ReporterConfig::default` from `jobs/reporter.rs` lines 40-49. -/
def ReporterConfig.default : ReporterConfig :=
  { max_retries := 3
    initial_delay := 1
    max_delay := 30
    backoff_factor := 2 }

/-- `ResultReporter::should_retry` from `jobs/reporter.rs` lines
139-159. -/
def should_retry : ApiError → Bool
| .RequestFailed _ => true
| .ServerError status_code _ => status_code ≥ 500 && status_code ≠ 501
| .RateLimited _ => true
| .AuthenticationFailed _ => false
| .CredentialError _ => false
| .InvalidResponse _ => true
| .JobAlreadyClaimed => false

/-- `ResultReporter::calculate_next_delay` from `jobs/reporter.rs`
lines 162-166: `min(current * backoff_factor, max_delay)`, computed in
the source through `f32` seconds (exact on the worker's value range). -/
def calculate_next_delay (cfg : ReporterConfig) (current : ℚ) : ℚ :=
  min (current * cfg.backoff_factor) cfg.max_delay

/-- The loop body of `ResultReporter::report_with_retry` from
`jobs/reporter.rs` lines 84-136. `client attempt` is the outcome of
the `attempt`-th call (1-based) to `ApiClient::report_result`;
returned are the number of calls made and the final outcome. The fuel
argument only bounds the recursion; with the fuel used in
`report_with_retry` the loop always returns through one of the
source's three exits before the fuel runs out. -/
def report_attempts (cfg : ReporterConfig)
    (client : Nat → Except ApiError Unit) :
    Nat → Nat → ℚ → Nat × Except ReportError Unit
| 0, attempts, _ =>
  (attempts, Except.error (ReportError.MaxRetriesExceeded attempts ""))
| fuel + 1, attempts, current_delay =>
  let attempts := attempts + 1
  match client attempts with
  | Except.ok _ => (attempts, Except.ok ())
  | Except.error e =>
    if !should_retry e then
      (attempts, Except.error (ReportError.ApiErr e))
    else if attempts ≥ cfg.max_retries then
      (attempts,
        Except.error (ReportError.MaxRetriesExceeded attempts e.render))
    else
      report_attempts cfg client fuel attempts
        (calculate_next_delay cfg current_delay)

/-- `ResultReporter::report_with_retry` from `jobs/reporter.rs` lines
79-136: starts at zero attempts with the configured initial delay. -/
def report_with_retry (cfg : ReporterConfig)
    (client : Nat → Except ApiError Unit) : Nat × Except ReportError Unit :=
  report_attempts cfg client (cfg.max_retries + 1) 0 cfg.initial_delay

/-- A report client answering from a finite script: the `n`-th call
(1-based) gets the `n`-th response, and calls past the end of the
script succeed. -/
def clientOf (responses : List (Except ApiError Unit)) :
    Nat → Except ApiError Unit :=
  fun attempt => responses.getD (attempt - 1) (Except.ok ())

/-! ## Job poller (`src/jobs/poller.rs`) -/

/-- `PollResult` from `jobs/poller.rs` lines 211-221. -/
inductive PollOutcome
| JobExecuted
| NoJobs
| Error
| RateLimited (retry_after : Nat)
deriving DecidableEq, Repr

/-- The per-tick mutable state of `JobPoller::run` (`jobs/poller.rs`
lines 62-65): the current poll interval in whole seconds and the
`consecutive_empty` counter (`u32` in the source, incremented with
wrapping arithmetic). -/
structure PollerState where
  current_interval : Nat
  consecutive_empty : Nat
deriving DecidableEq, Repr

/-- The polling-cadence parameters of `WorkerConfig` used by
`JobPoller::run`. -/
structure PollerConfig where
  poll_interval_seconds : Nat
  max_backoff_seconds : Nat
deriving DecidableEq, Repr

/-- `JobPoller::calculate_backoff` from `jobs/poller.rs` lines
190-198: double, capped at the maximum. -/
def calculate_backoff (current max : Nat) : Nat :=
  let next := current * 2
  if next > max then max else next

/-- One iteration of the interval state machine of `JobPoller::run`
(`jobs/poller.rs` lines 67-121): a job resets interval and streak; an
empty poll increments the streak and, once the streak has reached 3,
applies the backoff; an error applies the backoff leaving the streak
alone; rate limiting overrides the interval with the server value. -/
def poll_step (cfg : PollerConfig) (s : PollerState) :
    PollOutcome → PollerState
| .JobExecuted =>
  { current_interval := cfg.poll_interval_seconds, consecutive_empty := 0 }
| .NoJobs =>
  let streak := (s.consecutive_empty + 1) % 2 ^ 32
  if streak ≥ 3 then
    { current_interval :=
        calculate_backoff s.current_interval cfg.max_backoff_seconds
      consecutive_empty := streak }
  else { s with consecutive_empty := streak }
| .Error =>
  { s with
    current_interval :=
      calculate_backoff s.current_interval cfg.max_backoff_seconds }
| .RateLimited retry_after =>
  { s with current_interval := retry_after }

/-- Iterated `poll_step` over a list of tick outcomes. -/
def poll_trace (cfg : PollerConfig) (s : PollerState)
    (outcomes : List PollOutcome) : PollerState :=
  outcomes.foldl (poll_step cfg) s

/-- The classification of a poll attempt done by
`JobPoller::poll_and_execute` (`jobs/poller.rs` lines 127-188): a job
leads to execution and reporting, no job and rate limiting are passed
through, and every other error (an authentication failure after its
token-refresh attempt included) is a plain error tick. -/
def classify_poll (r : Except ApiError (Option DeploymentJob)) : PollOutcome :=
  match r with
  | Except.ok (some _) => PollOutcome.JobExecuted
  | Except.ok none => PollOutcome.NoJobs
  | Except.error (ApiError.RateLimited retry_after) =>
    PollOutcome.RateLimited retry_after
  | Except.error _ => PollOutcome.Error

/-! ## Job executor (`src/jobs/executor.rs`) -/

/-- The outcomes of the external calls one target-execution makes, as
seen by `JobExecutor::execute_on_target` and its helpers: the
reachability probe (`check_reachability`), the credential store lookup
(`CredentialVault::get_credential`), the SMB copy (`copy_file`,
returning the remote path), the remote service execution
(`execute_msi_via_service`, returning the exit code), the cleanup
deletion (`delete_file`, whose outcome the source ignores apart from a
warning log), and the elapsed wall-clock seconds
(`start.elapsed().as_secs()`). Error values carry the rendered error
text the source interpolates into messages. -/
structure TargetEnv where
  reach : Except String Unit
  vault_lookup : String → Except VaultError Credential
  smb_copy : Except String String
  svc_exec : Except String Int
  cleanup_delete : Except String Unit
  elapsed : Nat

/-- `JobExecutor::resolve_credentials` from `jobs/executor.rs` lines
442-475: the `__inline__` sentinel requires inline credentials (a
descriptive `NotFound` otherwise); any other reference goes to the
credential store. -/
def resolve_credentials (vault_lookup : String → Except VaultError Credential)
    (vault_ref : String) (inline_credentials : Option InlineCredentials) :
    Except VaultError Credential :=
  if vault_ref = "__inline__" then
    match inline_credentials with
    | some inline => Except.ok (Credential.new inline.username inline.password)
    | none =>
      Except.error (VaultError.NotFound
        "Inline credentials marker set but no credentials provided")
  else vault_lookup vault_ref

/-- `JobExecutor::execute_msi_install` from `jobs/executor.rs` lines
239-359: SMB copy, UNC-to-local path rewrite, command build, service
execution, unconditional cleanup (ignored here as in the source), then
a success result carrying the exit code or a failure tagged with the
failing phase. -/
def execute_msi_install (job : DeploymentJob) (target : DeploymentTarget)
    (env : TargetEnv) : TargetResult :=
  let hostname := target.hostname
  let machine_id := target.machine_id
  let payload := job.payload
  match env.smb_copy with
  | Except.error e =>
    TargetResult.mkFailure hostname machine_id ("SMB copy failed: " ++ e)
      env.elapsed ExecutionPhase.SmbCopy
  | Except.ok remote_msi_path =>
    let local_msi_path :=
      (remote_msi_path.replace ("\\\\" ++ hostname ++ "\\ADMIN$")
          "C:\\Windows").replace
        ("\\\\" ++ hostname ++ "\\admin$") "C:\\Windows"
    match build_msi_install_command local_msi_path payload.install_args
        payload.enroll_token with
    | Except.error e =>
      TargetResult.mkFailure hostname machine_id
        ("Failed to build MSI command: " ++ e.render) env.elapsed
        ExecutionPhase.ServiceCreation
    | Except.ok msi_command =>
      let service_command := wrap_for_service_execution msi_command
      let _ := service_command
      match env.svc_exec with
      | Except.ok exit_code =>
        TargetResult.mkSuccess hostname machine_id exit_code env.elapsed
      | Except.error e =>
        TargetResult.mkFailure hostname machine_id
          ("Service execution failed: " ++ e) env.elapsed
          ExecutionPhase.ServiceExecution

/-- `JobExecutor::execute_msi_uninstall` from `jobs/executor.rs` lines
362-436: requires a product code, builds the uninstall command, then
executes via the remote service. -/
def execute_msi_uninstall (job : DeploymentJob) (target : DeploymentTarget)
    (env : TargetEnv) : TargetResult :=
  let hostname := target.hostname
  let machine_id := target.machine_id
  let payload := job.payload
  match payload.product_code with
  | none =>
    TargetResult.mkFailure hostname machine_id
      "Product code required for uninstall" env.elapsed
      ExecutionPhase.ServiceCreation
  | some product_code =>
    match build_msi_uninstall_command product_code payload.install_args with
    | Except.error e =>
      TargetResult.mkFailure hostname machine_id
        ("Failed to build uninstall command: " ++ e.render) env.elapsed
        ExecutionPhase.ServiceCreation
    | Except.ok msi_command =>
      let service_command := wrap_for_service_execution msi_command
      let _ := service_command
      match env.svc_exec with
      | Except.ok exit_code =>
        TargetResult.mkSuccess hostname machine_id exit_code env.elapsed
      | Except.error e =>
        TargetResult.mkFailure hostname machine_id
          ("Uninstall failed: " ++ e) env.elapsed
          ExecutionPhase.ServiceExecution

/-- `JobExecutor::execute_on_target` from `jobs/executor.rs` lines
166-236: reachability check, credential resolution with the per-target
override, then the per-kind execution; `Execute` fails with a
"Direct execution not implemented" result at `ServiceExecution`. -/
def execute_on_target (job : DeploymentJob) (target : DeploymentTarget)
    (env : TargetEnv) : TargetResult :=
  let hostname := target.hostname
  let machine_id := target.machine_id
  match env.reach with
  | Except.error e =>
    TargetResult.mkFailure hostname machine_id ("Target unreachable: " ++ e)
      env.elapsed ExecutionPhase.ReachabilityCheck
  | Except.ok _ =>
    let vault_ref := target.vault_ref.getD job.payload.vault_ref
    match resolve_credentials env.vault_lookup vault_ref
        job.payload.inline_credentials with
    | Except.error e =>
      TargetResult.mkFailure hostname machine_id
        ("Credential error: " ++ e.render) env.elapsed
        ExecutionPhase.CredentialResolution
    | Except.ok _credentials =>
      match job.job_type with
      | JobType.MsiInstall => execute_msi_install job target env
      | JobType.MsiUninstall => execute_msi_uninstall job target env
      | JobType.Execute =>
        TargetResult.mkFailure hostname machine_id
          "Direct execution not implemented" env.elapsed
          ExecutionPhase.ServiceExecution

/-- The sequential `for target in &job.payload.targets` loop of
`JobExecutor::execute` (`jobs/executor.rs` lines 119-137): one
`TargetResult` appended per target, in order; `i` is the position of
the current target and `envs i` the external outcomes its execution
sees. -/
def execute_targets (job : DeploymentJob) (envs : Nat → TargetEnv) :
    Nat → List DeploymentTarget → List TargetResult
| _, [] => []
| i, t :: rest =>
  execute_on_target job t (envs i) :: execute_targets job envs (i + 1) rest

/-- `JobExecutor::execute` from `jobs/executor.rs` lines 84-162:
builds the fresh result, rejects unsupported job kinds (setting the
job-level error and `Failed` before finalizing), otherwise runs every
target sequentially appending its result, and finalizes. `envs i`
holds the external outcomes seen while executing the `i`-th target;
`started_at` and `now` stand for the two `Utc::now()` readings. -/
def JobExecutor.execute (worker_id : String) (started_at now : Int)
    (job : DeploymentJob) (envs : Nat → TargetEnv) : JobResult :=
  let result := JobResult.new job.id worker_id started_at started_at
  if !job.job_type.is_supported then
    let result :=
      { result with
        error_message :=
          some ("Unsupported job type: " ++ job.job_type.debugStr)
        status := JobStatus.Failed }
    result.finalize now
  else
    ({ result with
       target_results := execute_targets job envs 0 job.payload.targets
     }).finalize now

/-! ## Concrete fixtures for witnesses -/

/-- A concrete deployment target. -/
def sampleTarget : DeploymentTarget :=
  { hostname := "host1", vault_ref := none, machine_id := none }

/-- A concrete job payload with a single target and a vault
reference. -/
def samplePayload : JobPayload :=
  { installer_path := "\\\\srv\\share\\agent.msi"
    vault_ref := "DeploymentWorker:SMB"
    inline_credentials := none
    install_args := none
    enroll_token := none
    targets := [sampleTarget]
    product_code := none
    force_restart := false }

/-- A concrete deployment job of the given kind. -/
def sampleJob (jt : JobType) : DeploymentJob :=
  { id := 1
    job_type := jt
    created_at := 0
    priority := 5
    payload := samplePayload
    claimed_by := none
    claimed_at := none }

/-- A concrete target environment where every phase succeeds and the
installer exits with the given code. -/
def sampleEnv (code : Int) : TargetEnv :=
  { reach := Except.ok ()
    vault_lookup := fun _ => Except.ok (Credential.new "admin" "pw")
    smb_copy := Except.ok "\\\\host1\\ADMIN$\\Temp\\agent.msi"
    svc_exec := Except.ok code
    cleanup_delete := Except.ok ()
    elapsed := 4 }

/-! ## Status derivation lemmas -/

/-- With no target results, `calculate_status` is `Failed`. -/
theorem calculate_status_nil (r : JobResult) (h : r.target_results = []) :
    r.calculate_status = JobStatus.Failed := by
  simp [JobResult.calculate_status, h]

/-- With at least one target result, `calculate_status` is `Success`
exactly when every target succeeded. -/
theorem calculate_status_success_iff (r : JobResult)
    (h : r.target_results ≠ []) :
    r.calculate_status = JobStatus.Success ↔
      ∀ t ∈ r.target_results, t.success = true := by
  have hne : ¬ r.target_results.isEmpty := by
    simpa [List.isEmpty_iff] using h
  rw [JobResult.calculate_status, if_neg hne]
  by_cases hall :
      (r.target_results.filter (·.success)).length = r.target_results.length
  · rw [if_pos hall]
    simpa using (List.filter_length_eq_length.mp hall)
  · rw [if_neg hall]
    constructor
    · intro hc
      split at hc <;> simp_all
    · intro hforall
      exact absurd (List.filter_length_eq_length.mpr (by simpa using hforall))
        hall

/-- A positive count of successful target results exhibits a
successful member. -/
theorem exists_success_of_filter_pos (rs : List TargetResult)
    (hpos : 0 < (rs.filter (·.success)).length) :
    ∃ t ∈ rs, t.success = true := by
  have hne : rs.filter (·.success) ≠ [] := by
    intro hnil
    rw [hnil] at hpos
    simp at hpos
  obtain ⟨u, hu⟩ := List.exists_mem_of_ne_nil _ hne
  have hm := List.mem_filter.mp hu
  exact ⟨u, hm.1, by simpa using hm.2⟩

/-- With at least one target result, `calculate_status` is `Failed`
exactly when no target succeeded. -/
theorem calculate_status_failed_iff (r : JobResult)
    (h : r.target_results ≠ []) :
    r.calculate_status = JobStatus.Failed ↔
      ∀ t ∈ r.target_results, t.success = false := by
  have hne : ¬ r.target_results.isEmpty := by
    simpa [List.isEmpty_iff] using h
  rw [JobResult.calculate_status, if_neg hne]
  have hk_all :
      ((r.target_results.filter (·.success)).length =
        r.target_results.length) ↔
      ∀ t ∈ r.target_results, t.success = true := by
    exact List.filter_length_eq_length (p := (·.success))
      (l := r.target_results)
  have hk_zero :
      ((r.target_results.filter (·.success)).length = 0) ↔
      ∀ t ∈ r.target_results, t.success = false := by
    rw [List.length_eq_zero, List.filter_eq_nil_iff]
    simp
  by_cases hall :
      (r.target_results.filter (·.success)).length = r.target_results.length
  · rw [if_pos hall]
    obtain ⟨t, ht⟩ := List.exists_mem_of_ne_nil _ h
    have htt := hk_all.mp hall t ht
    constructor
    · intro hc
      exact absurd hc (by decide)
    · intro hforall
      exact absurd (hforall t ht) (by simp [htt])
  · rw [if_neg hall]
    by_cases hpos : (r.target_results.filter (·.success)).length > 0
    · rw [if_pos hpos]
      obtain ⟨u, hu, hsu⟩ := exists_success_of_filter_pos _ hpos
      constructor
      · intro hc
        exact absurd hc (by decide)
      · intro hforall
        exact absurd (hforall u hu) (by simp [hsu])
    · rw [if_neg hpos]
      exact iff_of_true rfl (hk_zero.mp (by omega))

/-- With at least one target result, `calculate_status` is
`PartialSuccess` exactly when some target succeeded and some target
failed. -/
theorem calculate_status_partial_iff (r : JobResult)
    (h : r.target_results ≠ []) :
    r.calculate_status = JobStatus.PartialSuccess ↔
      ((∃ t ∈ r.target_results, t.success = true) ∧
       (∃ t ∈ r.target_results, t.success = false)) := by
  have hne : ¬ r.target_results.isEmpty := by
    simpa [List.isEmpty_iff] using h
  rw [JobResult.calculate_status, if_neg hne]
  have hk_all :
      ((r.target_results.filter (·.success)).length =
        r.target_results.length) ↔
      ∀ t ∈ r.target_results, t.success = true := by
    exact List.filter_length_eq_length (p := (·.success))
      (l := r.target_results)
  have hk_zero :
      ((r.target_results.filter (·.success)).length = 0) ↔
      ∀ t ∈ r.target_results, t.success = false := by
    rw [List.length_eq_zero, List.filter_eq_nil_iff]
    simp
  by_cases hall :
      (r.target_results.filter (·.success)).length = r.target_results.length
  · rw [if_pos hall]
    constructor
    · intro hc
      exact absurd hc (by decide)
    · rintro ⟨_, ⟨u, hu, hsu⟩⟩
      have := hk_all.mp hall u hu
      simp_all
  · rw [if_neg hall]
    by_cases hpos : (r.target_results.filter (·.success)).length > 0
    · rw [if_pos hpos]
      refine iff_of_true rfl ⟨exists_success_of_filter_pos _ hpos, ?_⟩
      have hnot : ¬ ∀ t ∈ r.target_results, t.success = true := fun hf =>
        absurd (hk_all.mpr hf) hall
      push_neg at hnot
      obtain ⟨u, hu, hsu⟩ := hnot
      exact ⟨u, hu, by simpa using hsu⟩
    · rw [if_neg hpos]
      constructor
      · intro hc
        exact absurd hc (by decide)
      · rintro ⟨⟨u, hu, hsu⟩, _⟩
        have := hk_zero.mp (by omega) u hu
        simp_all

/-! ## Claim theorems -/

/-- Claim C2: for every finalized JobResult, zero target results give
status `Failed`; with at least one target result the status is
`Success` exactly when all targets succeeded, `Failed` exactly when no
target succeeded, and `PartialSuccess` exactly when some succeeded and
some failed. -/
theorem claim_C2 (r : JobResult) (now : Int) :
    (r.target_results = [] → (r.finalize now).status = JobStatus.Failed) ∧
    (r.target_results ≠ [] →
      (((r.finalize now).status = JobStatus.Success ↔
          ∀ t ∈ r.target_results, t.success = true) ∧
       ((r.finalize now).status = JobStatus.Failed ↔
          ∀ t ∈ r.target_results, t.success = false) ∧
       ((r.finalize now).status = JobStatus.PartialSuccess ↔
          ((∃ t ∈ r.target_results, t.success = true) ∧
           (∃ t ∈ r.target_results, t.success = false))))) := by
  have hstat : (r.finalize now).status =
      ({ r with completed_at := now }).calculate_status := rfl
  have htr : ({ r with completed_at := now } :
      JobResult).target_results = r.target_results := rfl
  constructor
  · intro hnil
    rw [hstat]
    exact calculate_status_nil _ (by rw [htr, hnil])
  · intro hne
    have hne' : ({ r with completed_at := now } :
        JobResult).target_results ≠ [] := by rw [htr]; exact hne
    refine ⟨?_, ?_, ?_⟩
    · rw [hstat]
      simpa using calculate_status_success_iff _ hne'
    · rw [hstat]
      simpa using calculate_status_failed_iff _ hne'
    · rw [hstat]
      simpa using calculate_status_partial_iff _ hne'

/-- Witness for C2: a concrete finalized result with one successful
target has status `Success`. -/
theorem claim_C2_witness :
    (({ JobResult.new 7 "worker-1" 0 0 with
        target_results := [TargetResult.mkSuccess "host1" none 0 10] }).finalize
      3).status = JobStatus.Success :=
  ((claim_C2
      { JobResult.new 7 "worker-1" 0 0 with
        target_results := [TargetResult.mkSuccess "host1" none 0 10] }
      3).2 (by decide)).1.mpr (by decide)

/-- Claim C3: an installer exit code is classified successful exactly
when it is 0 or 3010, both through `MsiExitCode` and through the
`success` flag of a completed-execution `TargetResult`. -/
theorem claim_C3 (c : Int) :
    ((MsiExitCode.ofCode c).is_success = true ↔ (c = 0 ∨ c = 3010)) ∧
    (∀ (h : String) (m : Option String) (d : Nat),
      (TargetResult.mkSuccess h m c d).success = true ↔ (c = 0 ∨ c = 3010)) := by
  constructor
  · unfold MsiExitCode.ofCode
    split_ifs with h0 h1 h2 h3 h4 h5 <;>
      simp [MsiExitCode.is_success, h0, *]
  · intro h m d
    simp [TargetResult.mkSuccess]

/-- Claim C5: a 429 poll response becomes a `RateLimited` error
carrying the server-provided `Retry-After` seconds, the poller sets
the next interval to exactly that value (independently of the current
state, hence bypassing the backoff calculation), and an absent or
unparseable header yields 60. -/
theorem claim_C5 (cfg : PollerConfig) (s : PollerState) (resp : PollResponse)
    (h : resp.status = 429) :
    poll_next_job resp =
      Except.error
        (ApiError.RateLimited (retry_after_value resp.retry_after_header)) ∧
    (∀ ra, (poll_step cfg s (PollOutcome.RateLimited ra)).current_interval =
      ra) ∧
    retry_after_value none = 60 ∧
    (∀ v, parse_u64 v = none → retry_after_value (some v) = 60) ∧
    (poll_step cfg s (classify_poll (poll_next_job resp))).current_interval =
      retry_after_value resp.retry_after_header := by
  have hpoll : poll_next_job resp =
      Except.error
        (ApiError.RateLimited (retry_after_value resp.retry_after_header)) := by
    unfold poll_next_job
    rw [h]
    simp
  refine ⟨hpoll, fun ra => rfl, rfl, ?_, ?_⟩
  · intro v hv
    simp [retry_after_value, hv]
  · rw [hpoll]
    rfl

/-- Witness for C5: a concrete 429 response with `Retry-After: 45`
drives the next poll interval to exactly 45 seconds. -/
theorem claim_C5_witness :
    (poll_step ⟨10, 300⟩ ⟨80, 5⟩
        (classify_poll
          (poll_next_job ⟨429, some "45", Except.error "x", "b"⟩))).current_interval =
      45 := by
  have h :=
    claim_C5 ⟨10, 300⟩ ⟨80, 5⟩ ⟨429, some "45", Except.error "x", "b"⟩ rfl
  rw [h.2.2.2.2]
  decide

/-- Claim C6: both backoff steps compute `min(current * factor, max)`
(factor 2 for the poller), and on inputs not exceeding the cap the
step is monotone in its input and never exceeds the configured
maximum. -/
theorem claim_C6 (cfg : ReporterConfig) (c c' m : Nat) (q q' : ℚ)
    (hfac : 0 ≤ cfg.backoff_factor) (_hc : c ≤ m) (hcc : c ≤ c')
    (_hq : q ≤ cfg.max_delay) (hqq : q ≤ q') :
    calculate_backoff c m = min (c * 2) m ∧
    calculate_next_delay cfg q = min (q * cfg.backoff_factor) cfg.max_delay ∧
    calculate_backoff c m ≤ calculate_backoff c' m ∧
    calculate_backoff c m ≤ m ∧
    calculate_next_delay cfg q ≤ calculate_next_delay cfg q' ∧
    calculate_next_delay cfg q ≤ cfg.max_delay := by
  have hmin : ∀ a b : Nat, calculate_backoff a b = min (a * 2) b := by
    intro a b
    show (if a * 2 > b then b else a * 2) = min (a * 2) b
    split_ifs with hgt <;> omega
  refine ⟨hmin c m, rfl, ?_, ?_, ?_, min_le_right _ _⟩
  · rw [hmin c m, hmin c' m]
    exact min_le_min (by omega) le_rfl
  · rw [hmin c m]
    exact min_le_right _ _
  · exact min_le_min (mul_le_mul_of_nonneg_right hqq hfac) le_rfl

/-- Witness for C6: the default reporter configuration and concrete
intervals instantiate the backoff characterization. -/
theorem claim_C6_witness :
    calculate_backoff 30 300 = 60 ∧
    calculate_next_delay ReporterConfig.default 8 ≤
      ReporterConfig.default.max_delay := by
  have h := claim_C6 ReporterConfig.default 30 40 300 8 16 (by decide)
    (by decide) (by decide) (by decide) (by decide)
  exact ⟨by rw [h.1]; decide, h.2.2.2.2.2⟩

/-- Counterexample to C7 as stated: the product-code string
`not-a-guid` does not conform to the curly-braced GUID format, yet
building the uninstall command succeeds (the string is treated as an
installer path). -/
theorem claim_C7_counterexample :
    is_valid_product_code "not-a-guid" = false ∧
    build_msi_uninstall_command "not-a-guid" none =
      Except.ok "msiexec /x \"not-a-guid\" /qn /norestart" := by
  constructor <;> rfl

/-- Claim C7 (amended): for every product-code string that starts with
a left curly brace and does not conform to the canonical
8-4-4-4-12-hex GUID format, building an uninstall command yields the
invalid-product-code validation error before any command output;
strings not starting with a brace are treated as installer paths. -/
theorem claim_C7_amended (code : String) (args : Option String)
    (hbrace : headIs code '\x7b' = true)
    (hinvalid : is_valid_product_code code = false) :
    build_msi_uninstall_command code args =
      Except.error (InstallerError.InvalidProductCode code) := by
  have hcond : (headIs code '\x7b' && !is_valid_product_code code) = true := by
    rw [hbrace, hinvalid]
    rfl
  unfold build_msi_uninstall_command
  rw [hcond]
  rfl

/-- Witness for the amended C7: the malformed braced code
`(left brace)invalid-guid(right brace)` is rejected. -/
theorem claim_C7_amended_witness :
    build_msi_uninstall_command "\x7binvalid-guid\x7d" none =
      Except.error (InstallerError.InvalidProductCode "\x7binvalid-guid\x7d") :=
  claim_C7_amended "\x7binvalid-guid\x7d" none (by decide) (by decide)

/-- Claim C8: a 404 response to the result report is treated as
success, and the reporter performs exactly one call with no retry and
no error for such a response. -/
theorem claim_C8 (body : String) (cfg : ReporterConfig) :
    report_result ⟨404, body⟩ = Except.ok () ∧
    report_with_retry cfg (fun _ => report_result ⟨404, body⟩) =
      (1, Except.ok ()) := by
  constructor
  · rfl
  · unfold report_with_retry
    simp [report_attempts, report_result]

/-- The reporter loop under `N` consecutive retryable failures
followed by a success: as long as the failing attempts stay below the
configured maximum, it performs exactly the `N + 1` calls and returns
success. -/
theorem report_attempts_retry_then_ok (cfg : ReporterConfig)
    (client : Nat → Except ApiError Unit) (e : ApiError)
    (he : should_retry e = true) :
    ∀ (N fuel attempts : Nat) (d : ℚ),
      attempts + N < cfg.max_retries →
      N + 1 ≤ fuel →
      (∀ k, attempts < k → k ≤ attempts + N → client k = Except.error e) →
      client (attempts + N + 1) = Except.ok () →
      report_attempts cfg client fuel attempts d =
        (attempts + N + 1, Except.ok ()) := by
  intro N
  induction N with
  | zero =>
    intro fuel attempts d hlt hfuel hfail hok
    obtain ⟨f, rfl⟩ : ∃ f, fuel = f + 1 := ⟨fuel - 1, by omega⟩
    have hok' : client (attempts + 1) = Except.ok () := by
      simpa using hok
    simp [report_attempts, hok']
  | succ n ih =>
    intro fuel attempts d hlt hfuel hfail hok
    obtain ⟨f, rfl⟩ : ∃ f, fuel = f + 1 := ⟨fuel - 1, by omega⟩
    have hfirst : client (attempts + 1) = Except.error e :=
      hfail (attempts + 1) (by omega) (by omega)
    have hstep := ih f (attempts + 1) (calculate_next_delay cfg d) (by omega)
      (by omega) (fun k h1 h2 => hfail k (by omega) (by omega))
      (by rw [show attempts + 1 + n + 1 = attempts + (n + 1) + 1 by omega]
          exact hok)
    have hcont : ¬ attempts + 1 ≥ cfg.max_retries := by omega
    simp only [report_attempts, hfirst, he, Bool.not_true, Bool.false_eq_true,
      if_false, if_neg hcont, hstep]
    simp [Prod.ext_iff]
    omega

/-- The index arithmetic of `clientOf` on a script of `N` failures
followed by one success: the first `N` calls fail. -/
theorem clientOf_fail (e : ApiError) (N k : Nat) (h1 : 1 ≤ k) (h2 : k ≤ N) :
    clientOf (List.replicate N (Except.error e) ++ [Except.ok ()]) k =
      Except.error e := by
  unfold clientOf
  rw [List.getD_eq_getElem?_getD, List.getElem?_append,
    List.getElem?_replicate]
  have : k - 1 < N := by omega
  simp [this]

/-- The index arithmetic of `clientOf`: call `N + 1` reaches the
success at the end of the script. -/
theorem clientOf_ok (e : ApiError) (N : Nat) :
    clientOf (List.replicate N (Except.error e) ++ [Except.ok ()]) (N + 1) =
      Except.ok () := by
  unfold clientOf
  rw [List.getD_eq_getElem?_getD, List.getElem?_append,
    List.getElem?_replicate]
  simp

/-- Counterexample to C4 as stated: with the default configuration
(three maximum attempts) and three failing retryable responses
followed by a would-be success, the reporter stops after 3 calls with
a max-retries-exceeded error instead of making the claimed
N + 1 = 4 calls and returning Ok. -/
theorem claim_C4_counterexample :
    should_retry (ApiError.ServerError 500 "x") = true ∧
    report_with_retry ReporterConfig.default
        (clientOf
          (List.replicate 3 (Except.error (ApiError.ServerError 500 "x")) ++
            [Except.ok ()])) =
      (3, Except.error
        (ReportError.MaxRetriesExceeded 3 "Server error (500): x")) := by
  constructor
  · rfl
  · rfl

/-- Claim C4 (amended): for every N strictly below the configured
maximum attempt count, N consecutive failing retryable responses
followed by one success make exactly N + 1 calls and return Ok; a
single non-retryable error makes exactly 1 call and surfaces that
error. -/
theorem claim_C4_amended (cfg : ReporterConfig) (e eNR : ApiError) (N : Nat)
    (hret : should_retry e = true) (hN : N < cfg.max_retries)
    (hnr : should_retry eNR = false) :
    report_with_retry cfg
        (clientOf (List.replicate N (Except.error e) ++ [Except.ok ()])) =
      (N + 1, Except.ok ()) ∧
    report_with_retry cfg (clientOf [Except.error eNR]) =
      (1, Except.error (ReportError.ApiErr eNR)) := by
  constructor
  · unfold report_with_retry
    have h := report_attempts_retry_then_ok cfg
      (clientOf (List.replicate N (Except.error e) ++ [Except.ok ()])) e hret
      N (cfg.max_retries + 1) 0 cfg.initial_delay (by omega) (by omega)
      (fun k h1 h2 => clientOf_fail e N k (by omega) (by omega))
      (by simpa using clientOf_ok e N)
    simpa using h
  · have hcall : clientOf [Except.error eNR] 1 = Except.error eNR := rfl
    unfold report_with_retry
    obtain ⟨f, hf⟩ : ∃ f, cfg.max_retries + 1 = f + 1 :=
      ⟨cfg.max_retries, rfl⟩
    rw [hf]
    simp [report_attempts, hcall, hnr]

/-- Witness for the amended C4: two retryable 500s then a success give
3 calls and Ok; a single 401 gives 1 call and the authentication
error. -/
theorem claim_C4_amended_witness :
    report_with_retry ReporterConfig.default
        (clientOf
          (List.replicate 2 (Except.error (ApiError.ServerError 500 "x")) ++
            [Except.ok ()])) =
      (3, Except.ok ()) ∧
    report_with_retry ReporterConfig.default
        (clientOf [Except.error (ApiError.AuthenticationFailed "bad")]) =
      (1, Except.error
        (ReportError.ApiErr (ApiError.AuthenticationFailed "bad"))) :=
  claim_C4_amended ReporterConfig.default (ApiError.ServerError 500 "x")
    (ApiError.AuthenticationFailed "bad") 2 (by decide) (by decide) (by decide)

/-- Neither argument splitting nor any other builder step changes the
builder's operation kind. -/
theorem with_args_job_type (b : MsiCommandBuilder) (args : String) :
    (b.with_args args).job_type = b.job_type := by
  unfold MsiCommandBuilder.with_args
  split_ifs <;> rfl

/-- `MsiCommandBuilder::build` only fails on the `Execute` kind. -/
theorem build_ok_of_not_execute (b : MsiCommandBuilder)
    (h : b.job_type ≠ JobType.Execute) :
    ∃ cmd, b.build = Except.ok cmd := by
  unfold MsiCommandBuilder.build
  rcases hjt : b.job_type with _ | _ | _
  · exact ⟨_, rfl⟩
  · exact ⟨_, rfl⟩
  · exact absurd hjt h

/-- `build_msi_install_command` always succeeds: its builder carries
the install kind, the only kind rejected being `Execute`. -/
theorem build_msi_install_ok (p : String) (a t : Option String) :
    ∃ cmd, build_msi_install_command p a t = Except.ok cmd := by
  unfold build_msi_install_command
  cases a <;> cases t <;>
  · apply build_ok_of_not_execute
    simp [with_args_job_type, MsiCommandBuilder.with_property,
      MsiCommandBuilder.new]

/-- Field shape of a completed-execution result. -/
theorem mkSuccess_shape (hn : String) (m : Option String) (c : Int) (d : Nat) :
    (TargetResult.mkSuccess hn m c d).exit_code = some c ∧
    (TargetResult.mkSuccess hn m c d).error_message = none ∧
    (TargetResult.mkSuccess hn m c d).failed_phase = none ∧
    ((TargetResult.mkSuccess hn m c d).success = true ↔ (c = 0 ∨ c = 3010)) := by
  refine ⟨rfl, rfl, rfl, ?_⟩
  simp [TargetResult.mkSuccess]

/-- Field shape of a phase-failure result. -/
theorem mkFailure_shape (hn : String) (m : Option String) (msg : String)
    (d : Nat) (ph : ExecutionPhase) :
    (TargetResult.mkFailure hn m msg d ph).success = false ∧
    (TargetResult.mkFailure hn m msg d ph).exit_code = none ∧
    (TargetResult.mkFailure hn m msg d ph).error_message = some msg ∧
    (TargetResult.mkFailure hn m msg d ph).failed_phase = some ph :=
  ⟨rfl, rfl, rfl, rfl⟩

/-- Every result of one target execution is built by exactly one of
the two `TargetResult` constructors, with the target's own hostname,
machine id and elapsed time. -/
theorem execute_on_target_shape (job : DeploymentJob)
    (target : DeploymentTarget) (env : TargetEnv) :
    (∃ c, execute_on_target job target env =
      TargetResult.mkSuccess target.hostname target.machine_id c
        env.elapsed) ∨
    (∃ msg ph, execute_on_target job target env =
      TargetResult.mkFailure target.hostname target.machine_id msg
        env.elapsed ph) := by
  unfold execute_on_target
  dsimp only
  rcases h1 : env.reach with e | u
  · right
    exact ⟨_, _, rfl⟩
  · dsimp only
    rcases h2 : resolve_credentials env.vault_lookup
        (target.vault_ref.getD job.payload.vault_ref)
        job.payload.inline_credentials with e2 | cred
    · right
      exact ⟨_, _, rfl⟩
    · dsimp only
      rcases h3 : job.job_type with _ | _ | _
      · dsimp only
        unfold execute_msi_install
        dsimp only
        rcases h4 : env.smb_copy with e4 | rpath
        · right
          exact ⟨_, _, rfl⟩
        · dsimp only
          rcases h5 : build_msi_install_command
              ((rpath.replace ("\\\\" ++ target.hostname ++ "\\ADMIN$")
                  "C:\\Windows").replace
                ("\\\\" ++ target.hostname ++ "\\admin$") "C:\\Windows")
              job.payload.install_args job.payload.enroll_token with e5 | cmd
          · right
            exact ⟨_, _, rfl⟩
          · dsimp only
            rcases h6 : env.svc_exec with e6 | code
            · right
              exact ⟨_, _, rfl⟩
            · left
              exact ⟨code, rfl⟩
      · dsimp only
        unfold execute_msi_uninstall
        dsimp only
        rcases h7 : job.payload.product_code with _ | pc
        · right
          exact ⟨_, _, rfl⟩
        · dsimp only
          rcases h8 : build_msi_uninstall_command pc job.payload.install_args
            with e8 | cmd
          · right
            exact ⟨_, _, rfl⟩
          · dsimp only
            rcases h6 : env.svc_exec with e6 | code
            · right
              exact ⟨_, _, rfl⟩
            · left
              exact ⟨code, rfl⟩
      · right
        exact ⟨_, _, rfl⟩

/-- When every phase of an MSI install succeeds, the target execution
returns the completed-execution result carrying the installer's exit
code. -/
theorem execute_on_target_install_ok (job : DeploymentJob)
    (target : DeploymentTarget) (env : TargetEnv)
    (hjt : job.job_type = JobType.MsiInstall)
    (hreach : env.reach = Except.ok ())
    (cred : Credential)
    (hcred : resolve_credentials env.vault_lookup
      (target.vault_ref.getD job.payload.vault_ref)
      job.payload.inline_credentials = Except.ok cred)
    (p : String) (hsmb : env.smb_copy = Except.ok p)
    (c : Int) (hsvc : env.svc_exec = Except.ok c) :
    execute_on_target job target env =
      TargetResult.mkSuccess target.hostname target.machine_id c
        env.elapsed := by
  unfold execute_on_target
  rw [hreach]
  dsimp only
  rw [hcred]
  dsimp only
  rw [hjt]
  dsimp only
  unfold execute_msi_install
  rw [hsmb]
  dsimp only
  obtain ⟨cmd, hcmd⟩ := build_msi_install_ok
    ((p.replace ("\\\\" ++ target.hostname ++ "\\ADMIN$")
        "C:\\Windows").replace
      ("\\\\" ++ target.hostname ++ "\\admin$") "C:\\Windows")
    job.payload.install_args job.payload.enroll_token
  rw [hcmd]
  dsimp only
  rw [hsvc]

/-- Claim C9: every `TargetResult` produced by one target execution
has exactly one of two shapes - a completed execution carries an exit
code, no error message and no failed phase, with success exactly for
codes 0 and 3010; a phase failure carries no exit code, an error
message and a failing phase, and is never successful. In particular an
installer that ran through every phase and exited with a failing code
yields an unsuccessful result with no failed phase and no error
message. -/
theorem claim_C9 (job : DeploymentJob) (target : DeploymentTarget)
    (env : TargetEnv) :
    ((∃ c, (execute_on_target job target env).exit_code = some c ∧
        (execute_on_target job target env).error_message = none ∧
        (execute_on_target job target env).failed_phase = none ∧
        ((execute_on_target job target env).success = true ↔
          (c = 0 ∨ c = 3010))) ∨
     ((execute_on_target job target env).success = false ∧
      (execute_on_target job target env).exit_code = none ∧
      (∃ m, (execute_on_target job target env).error_message = some m) ∧
      (∃ ph, (execute_on_target job target env).failed_phase = some ph))) ∧
    (job.job_type = JobType.MsiInstall →
      env.reach = Except.ok () →
      ∀ cred, resolve_credentials env.vault_lookup
          (target.vault_ref.getD job.payload.vault_ref)
          job.payload.inline_credentials = Except.ok cred →
      ∀ p, env.smb_copy = Except.ok p →
      ∀ c, env.svc_exec = Except.ok c →
      execute_on_target job target env =
        TargetResult.mkSuccess target.hostname target.machine_id c
          env.elapsed) ∧
    (∀ (hn : String) (m : Option String) (c : Int) (d : Nat),
      c ≠ 0 → c ≠ 3010 →
      (TargetResult.mkSuccess hn m c d).success = false ∧
      (TargetResult.mkSuccess hn m c d).failed_phase = none ∧
      (TargetResult.mkSuccess hn m c d).error_message = none) := by
  refine ⟨?_, ?_, ?_⟩
  · rcases execute_on_target_shape job target env with ⟨c, hc⟩ | ⟨msg, ph, hm⟩
    · left
      rw [hc]
      exact ⟨c, (mkSuccess_shape _ _ _ _).1, (mkSuccess_shape _ _ _ _).2.1,
        (mkSuccess_shape _ _ _ _).2.2.1, (mkSuccess_shape _ _ _ _).2.2.2⟩
    · right
      rw [hm]
      exact ⟨rfl, rfl, ⟨msg, rfl⟩, ⟨ph, rfl⟩⟩
  · intro hjt hreach cred hcred p hsmb c hsvc
    exact execute_on_target_install_ok job target env hjt hreach cred hcred
      p hsmb c hsvc
  · intro hn m c d hc0 hc1
    refine ⟨?_, rfl, rfl⟩
    simp [TargetResult.mkSuccess, hc0, hc1]

/-- Witness for C9: on a concrete install job whose every phase
succeeds and whose installer exits 1603, the result is the
completed-execution shape, unsuccessful, with no failed phase and no
error message. -/
theorem claim_C9_witness :
    execute_on_target (sampleJob JobType.MsiInstall) sampleTarget
        (sampleEnv 1603) =
      TargetResult.mkSuccess "host1" none 1603 4 ∧
    (TargetResult.mkSuccess "host1" none 1603 4).success = false ∧
    (TargetResult.mkSuccess "host1" none 1603 4).failed_phase = none ∧
    (TargetResult.mkSuccess "host1" none 1603 4).error_message = none := by
  have h := claim_C9 (sampleJob JobType.MsiInstall) sampleTarget
    (sampleEnv 1603)
  refine ⟨?_, ?_⟩
  · exact h.2.1 rfl rfl (Credential.new "admin" "pw") rfl
      "\\\\host1\\ADMIN$\\Temp\\agent.msi" rfl 1603 rfl
  · exact h.2.2 "host1" none 1603 4 (by decide) (by decide)

/-- Under the `Execute` kind, every target execution fails. -/
theorem execute_on_target_execute_fails (job : DeploymentJob)
    (target : DeploymentTarget) (env : TargetEnv)
    (hjt : job.job_type = JobType.Execute) :
    (execute_on_target job target env).success = false := by
  unfold execute_on_target
  dsimp only
  rcases h1 : env.reach with e | u
  · rfl
  · dsimp only
    rcases h2 : resolve_credentials env.vault_lookup
        (target.vault_ref.getD job.payload.vault_ref)
        job.payload.inline_credentials with e2 | cred
    · rfl
    · dsimp only
      rw [hjt]
      rfl

/-- Under the `Execute` kind, a target that passes reachability and
credential resolution fails with the not-implemented message at the
service-execution phase. -/
theorem execute_on_target_execute_impl (job : DeploymentJob)
    (target : DeploymentTarget) (env : TargetEnv)
    (hjt : job.job_type = JobType.Execute)
    (hreach : env.reach = Except.ok ())
    (cred : Credential)
    (hcred : resolve_credentials env.vault_lookup
      (target.vault_ref.getD job.payload.vault_ref)
      job.payload.inline_credentials = Except.ok cred) :
    execute_on_target job target env =
      TargetResult.mkFailure target.hostname target.machine_id
        "Direct execution not implemented" env.elapsed
        ExecutionPhase.ServiceExecution := by
  unfold execute_on_target
  rw [hreach]
  dsimp only
  rw [hcred]
  dsimp only
  rw [hjt]

/-- A failing reachability probe tags the result with the
reachability-check phase. -/
theorem execute_on_target_reach_fail (job : DeploymentJob)
    (target : DeploymentTarget) (env : TargetEnv) (e : String)
    (h : env.reach = Except.error e) :
    (execute_on_target job target env).failed_phase =
      some ExecutionPhase.ReachabilityCheck := by
  unfold execute_on_target
  rw [h]
  rfl

/-- The sequential target loop yields one result per target. -/
theorem execute_targets_length (job : DeploymentJob)
    (envs : Nat → TargetEnv) :
    ∀ (i : Nat) (ts : List DeploymentTarget),
      (execute_targets job envs i ts).length = ts.length := by
  intro i ts
  induction ts generalizing i with
  | nil => rfl
  | cons t rest ih => simp [execute_targets, ih]

/-- Under the `Execute` kind, every result of the target loop is
unsuccessful. -/
theorem execute_targets_execute_fail (job : DeploymentJob)
    (envs : Nat → TargetEnv) (hjt : job.job_type = JobType.Execute) :
    ∀ (i : Nat) (ts : List DeploymentTarget),
      ∀ tr ∈ execute_targets job envs i ts, tr.success = false := by
  intro i ts
  induction ts generalizing i with
  | nil =>
    intro tr h
    simp [execute_targets] at h
  | cons t rest ih =>
    intro tr h
    rcases (List.mem_cons).mp h with h1 | h1
    · rw [h1]
      exact execute_on_target_execute_fails job t (envs i) hjt
    · exact ih (i + 1) tr h1

/-- Counterexample to C1 as stated: a concrete generic-execute job is
not rejected at job level - its kind passes `is_supported`, the
finalized result carries no job-level error message, and the target
was attempted, producing the per-target not-implemented failure at
the service-execution phase. -/
theorem claim_C1_counterexample :
    JobType.is_supported JobType.Execute = true ∧
    (JobExecutor.execute "worker-1" 0 5 (sampleJob JobType.Execute)
        (fun _ => sampleEnv 0)).error_message = none ∧
    (JobExecutor.execute "worker-1" 0 5 (sampleJob JobType.Execute)
        (fun _ => sampleEnv 0)).target_results =
      [TargetResult.mkFailure "host1" none
        "Direct execution not implemented" 4
        ExecutionPhase.ServiceExecution] :=
  ⟨rfl, rfl, rfl⟩

/-- Claim C1 (amended): generic-execute jobs are not rejected at job
level - `is_supported` accepts the kind, the finalized result keeps
`error_message` empty and holds one result per target; the
reachability probe and credential resolution do run for each target
(their failures tag the corresponding phases), a target passing both
fails with the not-implemented message at the service-execution
phase, every target fails, and the finalized status is `Failed`. -/
theorem claim_C1_amended (worker_id : String) (started now : Int)
    (job : DeploymentJob) (envs : Nat → TargetEnv)
    (hjt : job.job_type = JobType.Execute) :
    JobType.is_supported JobType.Execute = true ∧
    (JobExecutor.execute worker_id started now job envs).error_message =
      none ∧
    (JobExecutor.execute worker_id started now job
        envs).target_results.length = job.payload.targets.length ∧
    (∀ tr ∈ (JobExecutor.execute worker_id started now job
        envs).target_results, tr.success = false) ∧
    (JobExecutor.execute worker_id started now job envs).status =
      JobStatus.Failed ∧
    (∀ t env cred, env.reach = Except.ok () →
      resolve_credentials env.vault_lookup
          (t.vault_ref.getD job.payload.vault_ref)
          job.payload.inline_credentials = Except.ok cred →
      execute_on_target job t env =
        TargetResult.mkFailure t.hostname t.machine_id
          "Direct execution not implemented" env.elapsed
          ExecutionPhase.ServiceExecution) ∧
    (∀ t env e, env.reach = Except.error e →
      (execute_on_target job t env).failed_phase =
        some ExecutionPhase.ReachabilityCheck) := by
  have hsup : job.job_type.is_supported = true := by
    rw [hjt]
    rfl
  have hexec : JobExecutor.execute worker_id started now job envs =
      ({ JobResult.new job.id worker_id started started with
         target_results :=
           execute_targets job envs 0 job.payload.targets }).finalize now := by
    unfold JobExecutor.execute
    rw [hsup]
    rfl
  refine ⟨rfl, ?_, ?_, ?_, ?_, ?_, ?_⟩
  · rw [hexec]
    rfl
  · rw [hexec]
    exact execute_targets_length job envs 0 job.payload.targets
  · rw [hexec]
    intro tr htr
    exact execute_targets_execute_fail job envs hjt 0 job.payload.targets
      tr htr
  · rw [hexec]
    rcases hts : job.payload.targets with _ | ⟨t, rest⟩
    · rfl
    · show ({ { JobResult.new job.id worker_id started started with
          target_results := execute_targets job envs 0 (t :: rest) } with
          completed_at := now }).calculate_status = JobStatus.Failed
      refine (calculate_status_failed_iff _ ?_).mpr ?_
      · exact List.cons_ne_nil _ _
      · intro tr htr
        exact execute_targets_execute_fail job envs hjt 0 (t :: rest) tr htr
  · intro t env cred hreach hcred
    exact execute_on_target_execute_impl job t env hjt hreach cred hcred
  · intro t env e h
    exact execute_on_target_reach_fail job t env e h

/-- Witness for the amended C1: the concrete generic-execute job of
the counterexample instantiates the amended claim - one unsuccessful
target result and overall status `Failed`. -/
theorem claim_C1_amended_witness :
    (JobExecutor.execute "worker-1" 0 5 (sampleJob JobType.Execute)
        (fun _ => sampleEnv 0)).status = JobStatus.Failed ∧
    (JobExecutor.execute "worker-1" 0 5 (sampleJob JobType.Execute)
        (fun _ => sampleEnv 0)).target_results.length = 1 := by
  have h := claim_C1_amended "worker-1" 0 5 (sampleJob JobType.Execute)
    (fun _ => sampleEnv 0) rfl
  exact ⟨h.2.2.2.2.1, h.2.2.1⟩

/-- Claim C10: the consecutive-empty counter is reset only by an
executed job; error and rate-limited ticks leave it unchanged; an
empty poll increments it; once the streak reaches 3 every further
empty poll applies the doubling backoff while below 3 the interval is
untouched; and empty polls separated by error and rate-limited ticks
still accumulate to the threshold. -/
theorem claim_C10 (cfg : PollerConfig) (s : PollerState)
    (hwrap : s.consecutive_empty + 1 < 2 ^ 32) :
    (poll_step cfg s PollOutcome.JobExecuted).consecutive_empty = 0 ∧
    (poll_step cfg s PollOutcome.Error).consecutive_empty =
      s.consecutive_empty ∧
    (∀ ra, (poll_step cfg s (PollOutcome.RateLimited ra)).consecutive_empty =
      s.consecutive_empty) ∧
    (poll_step cfg s PollOutcome.NoJobs).consecutive_empty =
      s.consecutive_empty + 1 ∧
    (s.consecutive_empty + 1 ≥ 3 →
      (poll_step cfg s PollOutcome.NoJobs).current_interval =
        calculate_backoff s.current_interval cfg.max_backoff_seconds) ∧
    (s.consecutive_empty + 1 < 3 →
      (poll_step cfg s PollOutcome.NoJobs).current_interval =
        s.current_interval) ∧
    (s.consecutive_empty = 0 →
      (poll_trace cfg s
        [PollOutcome.NoJobs, PollOutcome.Error, PollOutcome.NoJobs,
         PollOutcome.RateLimited 45, PollOutcome.NoJobs]).consecutive_empty =
        3) := by
  have hmod : (s.consecutive_empty + 1) % 2 ^ 32 = s.consecutive_empty + 1 :=
    Nat.mod_eq_of_lt hwrap
  refine ⟨rfl, rfl, fun ra => rfl, ?_, ?_, ?_, ?_⟩
  · simp only [poll_step]
    rw [hmod]
    split_ifs <;> rfl
  · intro h3
    simp only [poll_step]
    rw [hmod, if_pos h3]
  · intro h3
    simp only [poll_step]
    rw [hmod, if_neg (by omega)]
  · intro h0
    simp only [poll_trace, List.foldl, poll_step, h0]
    norm_num

/-- Witness for C10: at a streak of 2, a concrete empty poll reaches
the threshold and applies the doubling backoff. -/
theorem claim_C10_witness :
    (poll_step ⟨10, 300⟩ ⟨40, 2⟩ PollOutcome.NoJobs).consecutive_empty = 3 ∧
    (poll_step ⟨10, 300⟩ ⟨40, 2⟩ PollOutcome.NoJobs).current_interval =
      calculate_backoff 40 300 := by
  have h := claim_C10 ⟨10, 300⟩ ⟨40, 2⟩ (by decide)
  exact ⟨h.2.2.2.1, h.2.2.2.2.1 (by decide)⟩

end AgentDeployment
